import Mathlib

/-
Verification of the markitdown-mcp server
(src/packages/markitdown-mcp/src/markitdown_mcp/__main__.py).

The development shallowly embeds the Python source: JSON values carry the
shapes json.loads can produce, Python truthiness is made explicit, the
HTTP convenience handler and the command-line entry point are translated
clause by clause, and the conversion collaborator (the markitdown library,
external to this repository) is an opaque parameter.  Parts of the system
that live in the wrapped mcp library rather than in the repository source
(the tool registry built by the decorator, the session dispatch) are
modelled from the specification and marked as such in their doc comments.
-/

/-- JSON values as produced by json.loads on the request body.  Numbers are
modelled as integers; the claims under study never depend on fractional
values, only on truthiness, where 0 and 0.0 agree. -/
inductive JsonValue where
  | null
  | bool (b : Bool)
  | num (n : Int)
  | str (s : String)
  | arr (elems : List JsonValue)
  | obj (fields : List (String × JsonValue))
deriving Repr

/-- Python truthiness of a JSON value: None, False, 0, the empty string, the
empty list and the empty dict are falsy, everything else is truthy. -/
def truthy : JsonValue → Bool
  | .null => false
  | .bool b => b
  | .num n => n != 0
  | .str s => s != ""
  | .arr elems => !elems.isEmpty
  | .obj fields => !fields.isEmpty

/-- Lookup of a key in a JSON object, as dict.get does on the dict returned
by json.loads: with duplicate keys the last binding wins, a missing key
gives none. -/
def getField : List (String × JsonValue) → String → Option JsonValue
  | [], _ => none
  | (k, v) :: rest, key =>
      match getField rest key with
      | some r => some r
      | none => if k == key then some v else none

/-- The external conversion collaborator: a MarkItDown converter class with
construction state (MarkItDown() yields init) and a convert_uri method
that may consult and update the instance state and either returns the
markdown text of the result or raises with a message.  The argument is a
JsonValue because Python does not enforce the str annotation of the tool
function: whatever truthy value the request carried is passed through. -/
structure MarkItDown (σ : Type) where
  init : σ
  convertUri : σ → JsonValue → Except String String × σ

/-- Embedding of the tool function: return MarkItDown().convert_uri(uri).markdown.
A fresh converter instance is constructed, so the call always starts from
the construction state init. -/
def convert_to_markdown {σ : Type} (md : MarkItDown σ) (uri : JsonValue) :
    Except String String :=
  (md.convertUri md.init uri).1

/-- A POST request to /convert, reduced to what the handler consumes: the
outcome of await request.json(), either a parsed JSON value or the message
of the decode error it raised. -/
structure HttpRequest where
  jsonBody : Except String JsonValue

/-- An HTTP response produced by the handler: status code and JSON body. -/
structure JSONResponse where
  status : Nat
  body : JsonValue
deriving Repr

/-- Message of the AttributeError that body.get("uri") raises when the parsed
JSON body is not a dict.  The exact interpreter wording is irrelevant to
every claim; only that an exception with some description is raised. -/
def attrErrMsg : JsonValue → String
  | .null => "NoneType object has no attribute get"
  | .bool _ => "bool object has no attribute get"
  | .num _ => "int object has no attribute get"
  | .str _ => "str object has no attribute get"
  | .arr _ => "list object has no attribute get"
  | .obj _ => ""

/-- Embedding of handle_http_convert.  The Nat component counts how many
times the conversion collaborator was invoked while serving the request.
The try block covers the whole body: a JSON decode failure or an
AttributeError from calling .get on a non-dict is caught and answered with
status 500 and the exception text, a falsy uri (absent key included, since
dict.get returns the falsy None) is answered with status 400 before any
conversion, and otherwise convert_to_markdown runs once and its success or
failure becomes the 200 or 500 response. -/
def handle_http_convert {σ : Type} (md : MarkItDown σ) (request : HttpRequest) :
    JSONResponse × Nat :=
  match request.jsonBody with
  | .error e => (⟨500, .obj [("error", .str e)]⟩, 0)
  | .ok body =>
    match body with
    | .obj fields =>
        let uri := (getField fields "uri").getD .null
        if !truthy uri then
          (⟨400, .obj [("error", .str "Missing required parameter: uri")]⟩, 0)
        else
          match convert_to_markdown md uri with
          | .ok markdown => (⟨200, .obj [("markdown", .str markdown)]⟩, 1)
          | .error e => (⟨500, .obj [("error", .str e)]⟩, 1)
    | other => (⟨500, .obj [("error", .str (attrErrMsg other))]⟩, 0)

/-- The responses produced by serving a sequence of /convert requests.  The
handler keeps no state between requests (the converter instance is created
inside each invocation), so serving is a map. -/
def handleRequests {σ : Type} (md : MarkItDown σ) (reqs : List HttpRequest) :
    List JSONResponse :=
  reqs.map (fun r => (handle_http_convert md r).1)

/-- The results of a sequence of invocations of the tool function, each
constructing its own fresh MarkItDown instance as the source line does. -/
def runFresh {σ : Type} (md : MarkItDown σ) (uris : List JsonValue) :
    List (Except String String) :=
  uris.map (convert_to_markdown md)

/-- The parsed command line, as argparse leaves it: sse is a store_true flag
defaulting to false, host defaults to None, port is an int defaulting to
None. -/
structure Args where
  sse : Bool
  host : Option String
  port : Option Int
deriving Repr

/-- Python truthiness of args.host: None and the empty string are falsy. -/
def hostTruthy : Option String → Bool
  | none => false
  | some s => s != ""

/-- Python truthiness of args.port: None and 0 are falsy. -/
def portTruthy : Option Int → Bool
  | none => false
  | some n => n != 0

/-- What the entry point does after parsing: report a usage error through
parser.error (which prints the message to stderr and exits), run uvicorn
bound to a host and port, or run the stdio transport. -/
inductive MainAction where
  | usageError (msg : String)
  | runSse (host : String) (port : Int)
  | runStdio
deriving Repr, DecidableEq

/-- Exit behaviour of each action: parser.error exits the process with
status 2; the two server modes keep the process running (none). -/
def exitStatus : MainAction → Option Nat
  | .usageError _ => some 2
  | .runSse _ _ => none
  | .runStdio => none

/-- Embedding of the source function main after argument parsing (Lean
reserves the name main for executables): if not args.sse and (args.host
or args.port) then parser.error(...); the Python and/or connectives test
truthiness, so None, the empty host string and port 0 do not trigger the
usage error.  In SSE mode the binding falls back to 127.0.0.1 and 3001
when args.host and args.port are falsy, again by truthiness. -/
def mainEntry (args : Args) : MainAction :=
  if !args.sse && (hostTruthy args.host || portTruthy args.port) then
    .usageError "Host and port arguments are only valid when using SSE transport."
  else if args.sse then
    .runSse (if hostTruthy args.host then args.host.getD "" else "127.0.0.1")
            (if portTruthy args.port then args.port.getD 0 else 3001)
  else
    .runStdio

/-- Declared type and required flag of one schema field. -/
structure FieldSpec where
  type : String
  required : Bool
deriving Repr, DecidableEq

/-- A registered capability: an id, an input schema mapping field names to
their specs, and the handler that serves an argument mapping. -/
structure Capability where
  id : String
  input_schema : List (String × FieldSpec)
  handler : List (String × JsonValue) → Except String String

/-- Modelled from the spec: the capability registry that the single
mcp.tool() decoration of convert_to_markdown builds inside the FastMCP
library (the registry mechanism is library code, outside this repository
source).  It holds exactly one capability, id convert_to_markdown, whose
schema has the one required string field uri taken from the annotation,
and whose handler invokes the tool function on the uri argument. -/
def registry {σ : Type} (md : MarkItDown σ) : List Capability :=
  [⟨"convert_to_markdown", [("uri", ⟨"string", true⟩)],
    fun args => convert_to_markdown md ((getField args "uri").getD .null)⟩]

/-- Modelled from the spec: resolve(id) looks the capability up by id. -/
def resolve (caps : List Capability) (id : String) : Option Capability :=
  caps.find? (fun c => c.id == id)

/-- Failure modes of invoking a capability, from the spec taxonomy. -/
inductive InvokeError where
  | validationError (msg : String)
  | conversionError (msg : String)
deriving Repr, DecidableEq

/-- Modelled from the spec: validation of an argument mapping against an
input schema, before invocation.  A required field must be present and a
field declared string must be bound to a string. -/
def validateArgs (schema : List (String × FieldSpec)) (args : List (String × JsonValue)) :
    Bool :=
  schema.all (fun nf =>
    match getField args nf.1 with
    | some v =>
        if nf.2.type == "string" then
          match v with
          | .str _ => true
          | _ => false
        else true
    | none => !nf.2.required)

/-- Modelled from the spec: invoke(capability, arguments) validates first and
fails with a ValidationError when a required field is absent or mistyped;
only then does the handler run, its own failure becoming a
ConversionError. -/
def invoke (cap : Capability) (args : List (String × JsonValue)) :
    Except InvokeError String :=
  if validateArgs cap.input_schema args then
    match cap.handler args with
    | .ok r => .ok r
    | .error e => .error (.conversionError e)
  else
    .error (.validationError "missing or mistyped required field")

/-- A protocol request frame: caller-supplied correlation id, the capability
to invoke and the argument mapping. -/
structure RequestEnvelope where
  correlation_id : String
  capability_id : String
  arguments : List (String × JsonValue)

/-- A protocol response frame: the correlation id it answers, and either a
result or an error description. -/
structure ResponseEnvelope where
  correlation_id : String
  result : Option String
  error : Option String
deriving Repr, DecidableEq

/-- Modelled from the spec: dispatch of the Session Protocol Engine (the
engine is mcp library code, outside this repository source).  It resolves
the capability, validates and invokes it, and wraps success or failure
into a response envelope carrying the request correlation id unchanged;
no failure escapes this boundary. -/
def dispatch {σ : Type} (md : MarkItDown σ) (req : RequestEnvelope) :
    ResponseEnvelope :=
  match resolve (registry md) req.capability_id with
  | none => ⟨req.correlation_id, none, some "UnknownCapabilityError"⟩
  | some cap =>
    match invoke cap req.arguments with
    | .ok r => ⟨req.correlation_id, some r, none⟩
    | .error (.validationError e) => ⟨req.correlation_id, none, some e⟩
    | .error (.conversionError e) => ⟨req.correlation_id, none, some e⟩

/-- Modelled from the spec: a session serves its accepted requests strictly
in order, producing exactly one response per request. -/
def dispatchAll {σ : Type} (md : MarkItDown σ) (reqs : List RequestEnvelope) :
    List ResponseEnvelope :=
  reqs.map (dispatch md)

/-- The capability list visible after any history of served invocations
(HTTP convenience requests or protocol requests).  No statement in the
source mutates the tool table after the decorator registers
convert_to_markdown at import time, so serving leaves the registry as
registered. -/
def registryAfter {σ : Type} (md : MarkItDown σ)
    (_history : List (HttpRequest ⊕ RequestEnvelope)) : List Capability :=
  registry md

/-- A converter whose convert_uri ignores state and uri and always produces
the given outcome; used to instantiate theorems at concrete inputs. -/
def constConv (r : Except String String) : MarkItDown Unit :=
  ⟨(), fun s _ => (r, s)⟩

/-- C1: for every POST to /convert whose JSON object body binds uri to a
non-empty string, when the conversion collaborator returns markdown m for
that uri, the handler answers HTTP 200 with JSON body binding markdown to
m, having invoked the conversion exactly once; the capability registry
binds the same handler, which yields the same markdown on the same
argument, and the response depends on nothing but the request and the
collaborator (the handler keeps no session state). -/
theorem convert_ok_returns_markdown {σ : Type} (md : MarkItDown σ)
    (fields : List (String × JsonValue)) (uri m : String)
    (hget : getField fields "uri" = some (.str uri)) (hne : uri ≠ "")
    (hconv : convert_to_markdown md (.str uri) = .ok m) :
    handle_http_convert md ⟨.ok (.obj fields)⟩
      = (⟨200, .obj [("markdown", .str m)]⟩, 1)
    ∧ ∀ cap ∈ registry md, cap.handler [("uri", .str uri)] = .ok m := by
  constructor
  · simp [handle_http_convert, hget, truthy, hne, hconv]
  · intro cap hcap
    simp [registry] at hcap
    subst hcap
    simp [getField, hconv]

/-- Witness for C1 at the example of the spec: body uri https://example.com
with a collaborator returning Example yields 200 and markdown Example. -/
theorem convert_ok_returns_markdown_witness :
    handle_http_convert (constConv (.ok "Example"))
      ⟨.ok (.obj [("uri", .str "https://example.com")])⟩
      = (⟨200, .obj [("markdown", .str "Example")]⟩, 1) :=
  (convert_ok_returns_markdown (constConv (.ok "Example"))
    [("uri", .str "https://example.com")] "https://example.com" "Example"
    rfl (by decide) rfl).1

/-- C2: for every POST to /convert whose JSON object body has no uri key,
the handler answers HTTP 400 with a structured body carrying an error
field, and the conversion collaborator is never invoked: the invocation
count of the served request is 0, so no conversion side effect occurs. -/
theorem missing_uri_returns_400 {σ : Type} (md : MarkItDown σ)
    (fields : List (String × JsonValue))
    (habsent : getField fields "uri" = none) :
    handle_http_convert md ⟨.ok (.obj fields)⟩
      = (⟨400, .obj [("error", .str "Missing required parameter: uri")]⟩, 0) := by
  simp [handle_http_convert, habsent, truthy]

/-- Witness for C2 at the empty JSON object body. -/
theorem missing_uri_returns_400_witness :
    handle_http_convert (constConv (.ok "Example")) ⟨.ok (.obj [])⟩
      = (⟨400, .obj [("error", .str "Missing required parameter: uri")]⟩, 0) :=
  missing_uri_returns_400 (constConv (.ok "Example")) [] rfl

/-- C3 counterexample: the claim that every supplied host or port value in
stdio mode causes a usage-error exit fails at port 0.  With no sse flag
and port 0 the truthiness test args.host or args.port is false, so the
entry point silently ignores the option and runs the stdio transport,
exiting through no error path at all. -/
theorem stdio_port_zero_silently_ignored :
    mainEntry ⟨false, none, some 0⟩ = .runStdio
    ∧ exitStatus (mainEntry ⟨false, none, some 0⟩) = none := ⟨rfl, rfl⟩

/-- C3 amended: for every invocation in stdio mode (no sse flag) where a
truthy host (a non-empty string) or a truthy port (a non-zero integer) is
supplied, the entry point reports the descriptive usage-error message
through parser.error, which writes it to the error stream and exits the
process with status 2, a non-zero status; a supplied empty host string or
port 0, being falsy, is silently ignored instead. -/
theorem stdio_truthy_host_port_usage_error (args : Args)
    (hsse : args.sse = false)
    (hsupplied : hostTruthy args.host = true ∨ portTruthy args.port = true) :
    mainEntry args
      = .usageError "Host and port arguments are only valid when using SSE transport."
    ∧ exitStatus (mainEntry args) = some 2 := by
  rcases hsupplied with h | h <;>
    simp [mainEntry, hsse, h, exitStatus]

/-- Witness for the amended C3 at a stdio invocation supplying host 0.0.0.0. -/
theorem stdio_truthy_host_port_usage_error_witness :
    mainEntry ⟨false, some "0.0.0.0", none⟩
      = .usageError "Host and port arguments are only valid when using SSE transport."
    ∧ exitStatus (mainEntry ⟨false, some "0.0.0.0", none⟩) = some 2 :=
  stdio_truthy_host_port_usage_error ⟨false, some "0.0.0.0", none⟩ rfl (Or.inl rfl)

/-- C4: for every POST to /convert whose body carries a truthy uri, if the
conversion collaborator fails with description e the handler answers HTTP
500 with a body whose error field is e; and serving any request sequence
around the failing request still serves every other request exactly as it
would alone — the failure neither terminates serving nor changes any
other response. -/
theorem convert_failure_returns_500 {σ : Type} (md : MarkItDown σ)
    (fields : List (String × JsonValue)) (v : JsonValue) (e : String)
    (hget : getField fields "uri" = some v) (htruthy : truthy v = true)
    (hconv : convert_to_markdown md v = .error e)
    (pre post : List HttpRequest) :
    handle_http_convert md ⟨.ok (.obj fields)⟩
      = (⟨500, .obj [("error", .str e)]⟩, 1)
    ∧ handleRequests md (pre ++ ⟨.ok (.obj fields)⟩ :: post)
      = handleRequests md pre
        ++ ⟨500, .obj [("error", .str e)]⟩ :: handleRequests md post := by
  have h1 : handle_http_convert md ⟨.ok (.obj fields)⟩
      = (⟨500, .obj [("error", .str e)]⟩, 1) := by
    simp [handle_http_convert, hget, htruthy, hconv]
  refine ⟨h1, ?_⟩
  simp [handleRequests, h1]

/-- Witness for C4: a collaborator failing with boom yields 500 and error
boom. -/
theorem convert_failure_returns_500_witness :
    handle_http_convert (constConv (.error "boom")) ⟨.ok (.obj [("uri", .str "x")])⟩
      = (⟨500, .obj [("error", .str "boom")]⟩, 1) :=
  (convert_failure_returns_500 (constConv (.error "boom"))
    [("uri", .str "x")] (.str "x") "boom" rfl rfl rfl [] []).1

/-- C5: with the sse flag and no host or port override the server binds
127.0.0.1 port 3001, and without the sse flag (the default parse) the
entry point runs the stdio transport. -/
theorem sse_default_binding_and_stdio_default :
    mainEntry ⟨true, none, none⟩ = .runSse "127.0.0.1" 3001
    ∧ mainEntry ⟨false, none, none⟩ = .runStdio := ⟨rfl, rfl⟩

/-- C6: the registry holds exactly one capability; resolving
convert_to_markdown yields it, its schema is the one required string
field uri, and its handler returns exactly what the tool function
convert_to_markdown returns on the uri argument; every other id resolves
to nothing, and the registry visible after any served history equals the
registered one (no operation adds, removes or rebinds a capability). -/
theorem registry_single_capability {σ : Type} (md : MarkItDown σ) :
    (registry md).length = 1
    ∧ (∃ cap, resolve (registry md) "convert_to_markdown" = some cap
        ∧ cap.id = "convert_to_markdown"
        ∧ cap.input_schema = [("uri", ⟨"string", true⟩)]
        ∧ ∀ u : String, cap.handler [("uri", .str u)] = convert_to_markdown md (.str u))
    ∧ (∀ otherId, otherId ≠ "convert_to_markdown" → resolve (registry md) otherId = none)
    ∧ ∀ history, registryAfter md history = registry md := by
  refine ⟨rfl, ⟨(registry md).head (by simp [registry]), ?_, rfl, rfl, ?_⟩, ?_, fun _ => rfl⟩
  · simp [resolve, registry, List.find?]
  · intro u
    simp [registry, getField]
  · intro otherId hne
    simp only [resolve, registry, List.find?]
    have hb : (("convert_to_markdown" : String) == otherId) = false := by
      simp [Ne.symm hne]
    simp [hb]

/-- Witness for C6 at a concrete converter and a concrete foreign id. -/
theorem registry_single_capability_witness :
    resolve (registry (constConv (.ok "m"))) "not_convert" = none :=
  (registry_single_capability (constConv (.ok "m"))).2.2.1 "not_convert" (by decide)

/-- C7: for every protocol request naming the registered capability with a
string uri argument on which the collaborator succeeds with m, dispatch
returns a response envelope whose correlation id equals the request one,
whose result is m and whose error field is empty; and a session serving
any request sequence produces exactly one response per request. -/
theorem dispatch_valid_request {σ : Type} (md : MarkItDown σ)
    (req : RequestEnvelope) (u m : String)
    (hcap : req.capability_id = "convert_to_markdown")
    (hargs : req.arguments = [("uri", .str u)])
    (hconv : convert_to_markdown md (.str u) = .ok m) :
    dispatch md req = ⟨req.correlation_id, some m, none⟩
    ∧ ∀ reqs, (dispatchAll md reqs).length = reqs.length := by
  constructor
  · simp [dispatch, resolve, registry, hcap, invoke, validateArgs, hargs, getField, hconv]
  · intro reqs
    simp [dispatchAll]

/-- Witness for C7 at a concrete request with correlation id c1. -/
theorem dispatch_valid_request_witness :
    dispatch (constConv (.ok "m")) ⟨"c1", "convert_to_markdown", [("uri", .str "u")]⟩
      = ⟨"c1", some "m", none⟩ :=
  (dispatch_valid_request (constConv (.ok "m"))
    ⟨"c1", "convert_to_markdown", [("uri", .str "u")]⟩ "u" "m" rfl rfl rfl).1

/-- C8: for every POST to /convert whose body binds uri to one of the falsy
values empty string, null, false or 0, the handler answers exactly as it
does for a missing uri: HTTP 400 with the missing-parameter error, zero
invocations of the conversion collaborator, and a response equal to the
one for a body without the key — presence is tested by truthiness, not by
key membership. -/
theorem falsy_uri_treated_as_missing {σ : Type} (md : MarkItDown σ)
    (fields : List (String × JsonValue)) (v : JsonValue)
    (hget : getField fields "uri" = some v)
    (hfalsy : v = .str "" ∨ v = .null ∨ v = .bool false ∨ v = .num 0) :
    handle_http_convert md ⟨.ok (.obj fields)⟩
      = (⟨400, .obj [("error", .str "Missing required parameter: uri")]⟩, 0)
    ∧ handle_http_convert md ⟨.ok (.obj fields)⟩
      = handle_http_convert md ⟨.ok (.obj [])⟩ := by
  have h400 : handle_http_convert md ⟨.ok (.obj fields)⟩
      = (⟨400, .obj [("error", .str "Missing required parameter: uri")]⟩, 0) := by
    rcases hfalsy with h | h | h | h <;> subst h <;>
      simp [handle_http_convert, hget, truthy]
  exact ⟨h400, by rw [h400]; rfl⟩

/-- Witness for C8 at a body binding uri to null. -/
theorem falsy_uri_treated_as_missing_witness :
    handle_http_convert (constConv (.ok "Example")) ⟨.ok (.obj [("uri", .null)])⟩
      = (⟨400, .obj [("error", .str "Missing required parameter: uri")]⟩, 0) :=
  (falsy_uri_treated_as_missing (constConv (.ok "Example"))
    [("uri", .null)] .null rfl (Or.inr (Or.inl rfl))).1

/-- C9: the /convert handler is total at its boundary: every request,
whatever its body, is answered with status 200, 400 or 500 and a JSON
object body, no exception escaping; and a body that is not parseable
JSON is answered with HTTP 500 carrying the decode-error description in
the error field, not with HTTP 400. -/
theorem convert_handler_total {σ : Type} (md : MarkItDown σ) :
    (∀ req : HttpRequest,
        ((handle_http_convert md req).1.status = 200
          ∨ (handle_http_convert md req).1.status = 400
          ∨ (handle_http_convert md req).1.status = 500)
        ∧ ∃ fields, (handle_http_convert md req).1.body = .obj fields)
    ∧ ∀ e, handle_http_convert md ⟨.error e⟩
        = (⟨500, .obj [("error", .str e)]⟩, 0) := by
  constructor
  · rintro ⟨b⟩
    cases b with
    | error e => simp [handle_http_convert]
    | ok v =>
      cases v with
      | obj fields =>
        by_cases ht : truthy ((getField fields "uri").getD .null)
        · cases hc : convert_to_markdown md ((getField fields "uri").getD .null) with
          | ok mdown => simp [handle_http_convert, ht, hc]
          | error e => simp [handle_http_convert, ht, hc]
        · simp [handle_http_convert, ht]
      | null => simp [handle_http_convert, attrErrMsg]
      | bool x => simp [handle_http_convert, attrErrMsg]
      | num n => simp [handle_http_convert, attrErrMsg]
      | str s => simp [handle_http_convert, attrErrMsg]
      | arr elems => simp [handle_http_convert, attrErrMsg]
  · intro e
    rfl

/-- C10: every invocation of the tool function evaluates the converter from
its construction state init — a fresh MarkItDown instance per call — so a
run of invocations is position-independent: the result at each position
equals the single-call result on that uri alone, whatever ran before or
after, and likewise each /convert request in any served sequence gets the
response it would get alone. -/
theorem fresh_instance_independence {σ : Type} (md : MarkItDown σ)
    (pre post : List JsonValue) (uri : JsonValue) :
    convert_to_markdown md uri = (md.convertUri md.init uri).1
    ∧ runFresh md (pre ++ uri :: post)
      = runFresh md pre ++ convert_to_markdown md uri :: runFresh md post
    ∧ ∀ (hpre hpost : List HttpRequest) (r : HttpRequest),
        handleRequests md (hpre ++ r :: hpost)
          = handleRequests md hpre
            ++ (handle_http_convert md r).1 :: handleRequests md hpost := by
  refine ⟨rfl, ?_, ?_⟩
  · simp [runFresh]
  · intro hpre hpost r
    simp [handleRequests]
